import Mathlib

/-!
Verification of the ATS document validator.

A shallow embedding of `src/ats_pdf_generator/validator.py` and
`src/ats_pdf_generator/validator/contact_validator.py` from the
`ats-pdf-generator` repository, together with theorems settling the
specification claims about the validation rule engine.

Text is modelled as `List Char` (Python `str`).  The regular expressions used
by the checks are embedded through a small combinator language whose semantics
follows Python's `re` backtracking engine: a matcher returns the ordered list
of candidate end positions that the backtracking engine would try at a given
start position, so the head of that list is the end of the match Python would
report.  Character classes `\s`, `\d`, `\w` are modelled on the character sets
Python uses (for `\d` and `\w` only the ASCII portion is modelled; the
documents exercised by the claims contain no non-ASCII digits or letters).
-/

set_option maxRecDepth 10000

abbrev Chars := List Char

/-- Python's whitespace set: the characters accepted by `str.isspace`, which is
also the set matched by `\s` in a `str` regex pattern. -/
def isPySpace (c : Char) : Bool :=
  c == ' ' || c == '\t' || c == '\n' || c == '\x0d' ||
  c == Char.ofNat 0x0b || c == Char.ofNat 0x0c ||
  (0x1c ≤ c.toNat && c.toNat ≤ 0x1f) || c.toNat == 0x85 || c.toNat == 0xa0 ||
  c.toNat == 0x1680 || (0x2000 ≤ c.toNat && c.toNat ≤ 0x200a) ||
  c.toNat == 0x2028 || c.toNat == 0x2029 || c.toNat == 0x202f ||
  c.toNat == 0x205f || c.toNat == 0x3000

/-- ASCII decimal digit (`\d`). -/
def isPyDigit (c : Char) : Bool := '0' ≤ c && c ≤ '9'

/-- ASCII word character (`\w`): letter, digit or underscore. -/
def isWordChar (c : Char) : Bool :=
  ('a' ≤ c && c ≤ 'z') || ('A' ≤ c && c ≤ 'Z') || isPyDigit c || c == '_'

/-- The line-boundary characters recognised by Python's `str.splitlines`. -/
def isLineBreak (c : Char) : Bool :=
  c == '\n' || c == '\x0d' || c == Char.ofNat 0x0b || c == Char.ofNat 0x0c ||
  c.toNat == 0x1c || c.toNat == 0x1d || c.toNat == 0x1e || c.toNat == 0x85 ||
  c.toNat == 0x2028 || c.toNat == 0x2029

/-- `str.splitlines`, accumulating the current line in reverse: split at
every line boundary, treating `"\r\n"` as a single boundary; a trailing
boundary does not open a final empty line, and the empty string has no
lines. -/
def pySplitlinesAux : Chars → Chars → List Chars
  | [], acc => if acc.isEmpty then [] else [acc.reverse]
  | [c], acc => if isLineBreak c then [acc.reverse] else [(c :: acc).reverse]
  | c :: d :: rest, acc =>
    if c = '\x0d' && d = '\n' then acc.reverse :: pySplitlinesAux rest []
    else if isLineBreak c then acc.reverse :: pySplitlinesAux (d :: rest) []
    else pySplitlinesAux (d :: rest) (c :: acc)

/-- `str.splitlines`. -/
def pySplitlines (cs : Chars) : List Chars := pySplitlinesAux cs []

/-- `str.strip()`: remove leading and trailing whitespace. -/
def pyStrip (cs : Chars) : Chars :=
  ((cs.dropWhile isPySpace).reverse.dropWhile isPySpace).reverse

/-- `str.lower()` (ASCII case folding; the validator's label sets and keyword
lists are all ASCII). -/
def pyLower (cs : Chars) : Chars := cs.map Char.toLower

/-- `str.split()` with no argument: split on whitespace runs, discarding empty
pieces. -/
def pySplitWsAux : Chars → Chars → List Chars
  | [], acc => if acc.isEmpty then [] else [acc.reverse]
  | c :: rest, acc =>
    if isPySpace c then
      if acc.isEmpty then pySplitWsAux rest [] else acc.reverse :: pySplitWsAux rest []
    else pySplitWsAux rest (c :: acc)

def pySplitWs (cs : Chars) : List Chars := pySplitWsAux cs []

/-- `str.split("\n")`: split at every `'\n'`, keeping empty pieces. -/
def splitOnNlAux : Chars → Chars → List Chars
  | [], acc => [acc.reverse]
  | c :: rest, acc =>
    if c = '\n' then acc.reverse :: splitOnNlAux rest []
    else splitOnNlAux rest (c :: acc)

def splitOnNl (cs : Chars) : List Chars := splitOnNlAux cs []

/-- Does `hay` start with `n`? -/
def startsWith' : Chars → Chars → Bool
  | [], _ => true
  | _ :: _, [] => false
  | a :: ns, b :: hs => a == b && startsWith' ns hs

/-- Python's `in` operator on strings: is `n` a contiguous substring of the
second argument? -/
def containsSub (n : Chars) : Chars → Bool
  | [] => n.isEmpty
  | c :: rest => startsWith' n (c :: rest) || containsSub n rest

/-- `str.count`: number of non-overlapping occurrences, scanning left to
right and resuming after each occurrence (0 for the empty needle, which the
validator never uses).  The fuel argument, initialised to the haystack
length, only serves structural recursion: every step consumes at least one
haystack character. -/
def countOccAux (needle : Chars) : Nat → Chars → Nat
  | 0, _ => 0
  | _ + 1, [] => 0
  | fuel + 1, c :: rest =>
    if startsWith' needle (c :: rest) then
      countOccAux needle fuel (rest.drop (needle.length - 1)) + 1
    else countOccAux needle fuel rest

def countOcc (needle hay : Chars) : Nat :=
  if needle.isEmpty then 0 else countOccAux needle hay.length hay

/-- `enumerate(lines, k)`. -/
def enumFrom : Nat → List α → List (Nat × α)
  | _, [] => []
  | i, x :: xs => (i, x) :: enumFrom (i + 1) xs

/-- Number of `'\n'` characters (used by the hidden-text rule to derive line
numbers). -/
def countNl (cs : Chars) : Nat := cs.countP (fun c => c == '\n')

/-! ## Regex combinators

A `Matcher` maps the subject and a start position to the ordered list of end
positions the backtracking engine would try; the head is Python's match end. -/

abbrev Matcher := Chars → Nat → List Nat

/-- A single character from a class. -/
def charClassM (p : Char → Bool) : Matcher := fun cs i =>
  match cs[i]? with
  | some c => if p c then [i + 1] else []
  | none => []

/-- A literal string. -/
def litM (l : Chars) : Matcher := fun cs i =>
  if (cs.drop i).take l.length = l then [i + l.length] else []

/-- A literal string under `re.IGNORECASE` (ASCII folding). -/
def litCIM (l : Chars) : Matcher := fun cs i =>
  if pyLower ((cs.drop i).take l.length) = pyLower l then [i + l.length] else []

/-- Sequencing: each end of the first feeds the second, in backtracking
order. -/
def seqM (m1 m2 : Matcher) : Matcher := fun cs i => (m1 cs i).flatMap (m2 cs)

def epsM : Matcher := fun _ i => [i]

def seqsM (ms : List Matcher) : Matcher := ms.foldr seqM epsM

/-- Ordered alternation `a|b`. -/
def altM (m1 m2 : Matcher) : Matcher := fun cs i => m1 cs i ++ m2 cs i

def altsM (ms : List Matcher) : Matcher := ms.foldr altM (fun _ _ => [])

/-- Greedy option `m?`: try the match first, then the empty alternative. -/
def optM (m : Matcher) : Matcher := fun cs i => m cs i ++ [i]

/-- Length of the run of class characters starting at `i`. -/
def runLen (p : Char → Bool) (cs : Chars) (i : Nat) : Nat :=
  ((cs.drop i).takeWhile p).length

/-- Greedy `[class]*`: candidate ends from the longest run down to zero. -/
def classStarM (p : Char → Bool) : Matcher := fun cs i =>
  (List.range (runLen p cs i + 1)).reverse.map (fun k => i + k)

/-- Greedy `[class]+`. -/
def classPlusM (p : Char → Bool) : Matcher := fun cs i =>
  (List.range (runLen p cs i)).reverse.map (fun k => i + k + 1)

/-- `[class]{k}` (exactly `k`). -/
def classExactM (p : Char → Bool) (k : Nat) : Matcher := fun cs i =>
  if k ≤ runLen p cs i then [i + k] else []

/-- Greedy `[class]{lo,hi}`. -/
def classRepM (p : Char → Bool) (lo hi : Nat) : Matcher := fun cs i =>
  let n := min (runLen p cs i) hi
  if n < lo then [] else (List.range (n - lo + 1)).map (fun k => i + n - k)

/-- Greedy `[class]{lo,}`. -/
def classAtLeastM (p : Char → Bool) (lo : Nat) : Matcher := fun cs i =>
  let n := runLen p cs i
  if n < lo then [] else (List.range (n - lo + 1)).map (fun k => i + n - k)

/-- Greedy `.*` without `re.DOTALL` (stops at `'\n'`). -/
def dotStarM : Matcher := classStarM (fun c => !(c == '\n'))

/-- Lazy `.*?` under `re.DOTALL`: shortest candidates first, any character. -/
def dotStarLazyAllM : Matcher := fun cs i => List.range' i (cs.length + 1 - i)

/-- `$` (subjects here never end in `'\n'`, where Python's `$` would also
match one position earlier). -/
def endM : Matcher := fun cs i => if i = cs.length then [i] else []

/-- `\b` word boundary. -/
def boundM : Matcher := fun cs i =>
  let prevW := if i = 0 then false else ((cs[i - 1]?).map isWordChar).getD false
  let nextW := ((cs[i]?).map isWordChar).getD false
  if prevW != nextW then [i] else []

/-- Negative lookahead `(?!m)`. -/
def negAheadM (m : Matcher) : Matcher := fun cs i =>
  if (m cs i).isEmpty then [i] else []

/-- End position of the match starting at `i`, if any (Python tries the
candidates in order and keeps the first full match). -/
def matchEnds (m : Matcher) (cs : Chars) (i : Nat) : Option Nat := (m cs i).head?

/-- `pattern.match(cs)`: does the pattern match at position 0? -/
def reMatch (m : Matcher) (cs : Chars) : Bool := (matchEnds m cs 0).isSome

/-- `pattern.search`: scan positions left to right, returning the span of the
first match. -/
def searchAux (m : Matcher) (cs : Chars) : Nat → Nat → Option (Nat × Nat)
  | _, 0 => none
  | i, fuel + 1 =>
    match matchEnds m cs i with
    | some e => some (i, e)
    | none => if i < cs.length then searchAux m cs (i + 1) fuel else none

def reSearch (m : Matcher) (cs : Chars) : Option (Nat × Nat) :=
  searchAux m cs 0 (cs.length + 1)

def reTest (m : Matcher) (cs : Chars) : Bool := (reSearch m cs).isSome

/-- `pattern.finditer`: non-overlapping matches, scanning left to right and
resuming after each match. -/
def finditerAux (m : Matcher) (cs : Chars) : Nat → Nat → List (Nat × Nat)
  | _, 0 => []
  | i, fuel + 1 =>
    if cs.length < i then []
    else
      match matchEnds m cs i with
      | some e => (i, e) :: finditerAux m cs (max e (i + 1)) fuel
      | none => finditerAux m cs (i + 1) fuel

def reFinditer (m : Matcher) (cs : Chars) : List (Nat × Nat) :=
  finditerAux m cs 0 (cs.length + 1)

/-- `match.group(0)` for a span. -/
def extract (cs : Chars) (s e : Nat) : Chars := (cs.drop s).take (e - s)

/-! ## Data model (`validator.py`) -/

/-- Severity levels for validation violations. -/
inductive Severity where
  | CRITICAL
  | HIGH
  | MEDIUM
  | LOW
deriving DecidableEq, Repr

/-- Represents a single validation violation (the `NamedTuple` of
`validator.py`). -/
structure Violation where
  line_number : Nat
  line_content : Chars
  violation_type : Chars
  severity : Severity
  message : Chars
  suggestion : Chars
  found_text : Chars
deriving DecidableEq, Repr

/-! ## Pattern constants of `validator.py` -/

def inCpRange (c : Char) (lo hi : Nat) : Bool := lo ≤ c.toNat && c.toNat ≤ hi

/-- The character set of `EMOJI_PATTERN`'s class. -/
def isEmojiChar (c : Char) : Bool :=
  inCpRange c 0x1f1e0 0x1f1ff || inCpRange c 0x1f300 0x1f5ff ||
  inCpRange c 0x1f600 0x1f64f || inCpRange c 0x1f680 0x1f6ff ||
  inCpRange c 0x1f700 0x1f77f || inCpRange c 0x1f780 0x1f7ff ||
  inCpRange c 0x1f800 0x1f8ff || inCpRange c 0x1f900 0x1f9ff ||
  inCpRange c 0x1fa00 0x1fa6f || inCpRange c 0x1fa70 0x1faff ||
  inCpRange c 0x2600 0x26ff || inCpRange c 0x2700 0x27bf ||
  inCpRange c 0x2190 0x21ff

/-- `EMOJI_PATTERN = re.compile("[…ranges…]+")`. -/
def EMOJI_PATTERN : Matcher := classPlusM isEmojiChar

/-- `TABLE_PATTERN = re.compile(r"^\s*\|.*\|.*$")` (used with `.match`). -/
def TABLE_PATTERN : Matcher :=
  seqsM [classStarM isPySpace, litM "|".toList, dotStarM, litM "|".toList,
    dotStarM, endM]

/-- `SMART_QUOTES_PATTERN = re.compile(r"[" "''" "]")` — the class literally
holds two ASCII apostrophes, so it matches exactly `'`. -/
def SMART_QUOTES_PATTERN : Matcher := charClassM (fun c => c == '\'')

/-- `EM_DASH_PATTERN = re.compile(r"—")` (U+2014). -/
def EM_DASH_PATTERN : Matcher := charClassM (fun c => c.toNat == 0x2014)

/-- `EN_DASH_PATTERN = re.compile(r"–")` (U+2013). -/
def EN_DASH_PATTERN : Matcher := charClassM (fun c => c.toNat == 0x2013)

/-- `ELLIPSIS_PATTERN = re.compile(r"…")` (U+2026). -/
def ELLIPSIS_PATTERN : Matcher := charClassM (fun c => c.toNat == 0x2026)

/-- The character class of `ALL_CAPS_PATTERN = r"^[A-Z\s\d\.,!?\-:;()]+$"`. -/
def isAllCapsChar (c : Char) : Bool :=
  ('A' ≤ c && c ≤ 'Z') || isPySpace c || isPyDigit c ||
  (".,!?-:;()".toList).contains c

/-- `ALL_CAPS_PATTERN` (used with `.match`, hence anchored on both sides). -/
def ALL_CAPS_PATTERN : Matcher := seqsM [classPlusM isAllCapsChar, endM]

/-- `HIDDEN_COMMENT_PATTERN = re.compile(r"<!--.*?-->", re.DOTALL)`. -/
def HIDDEN_COMMENT_PATTERN : Matcher :=
  seqsM [litM "<!--".toList, dotStarLazyAllM, litM "-->".toList]

/-- The dash class `[-–—]` of the date patterns. -/
def isDateDash (c : Char) : Bool :=
  c == '-' || c.toNat == 0x2013 || c.toNat == 0x2014

/-- `NON_STANDARD_DATE_PATTERN`: season/relative prefixes with a year, or a
year–year range not annotated `(for education only)`. -/
def NON_STANDARD_DATE_PATTERN : Matcher :=
  altM
    (seqsM [boundM,
      altsM (["Early", "Mid", "Late", "Summer", "Fall", "Winter", "Spring"].map
        (fun w => litM w.toList)),
      classPlusM isPySpace, classExactM isPyDigit 4, boundM])
    (seqsM [boundM, classExactM isPyDigit 4, classStarM isPySpace,
      charClassM isDateDash, classStarM isPySpace, classExactM isPyDigit 4,
      boundM,
      negAheadM (seqsM [classStarM isPySpace, litM "(for education only)".toList])])

/-- `COMMON_ACRONYMS` — acronyms that should not trigger ALL CAPS
violations. -/
def COMMON_ACRONYMS : List Chars :=
  ["API", "AWS", "CSS", "HTML", "HTTP", "HTTPS", "JSON", "REST", "SQL", "XML",
   "UI", "UX", "CI", "CD", "SDLC", "IDE", "OS", "CPU", "GPU", "RAM", "SSD",
   "URL", "URI", "DNS", "SSL", "TLS", "VPN", "IP", "TCP", "UDP", "FTP",
   "SSH"].map String.toList

/-- `CREATIVE_TITLE_PATTERNS` (both compiled with `re.IGNORECASE`). -/
def CREATIVE_TITLE_PATTERNS : List Matcher :=
  [seqsM [boundM,
     altsM (["ninja", "wizard", "guru", "rockstar", "champion", "hero",
       "expert", "master", "specialist"].map (fun w => litCIM w.toList)),
     boundM],
   seqsM [boundM,
     altsM [seqsM [litCIM "code".toList, classPlusM isPySpace, litCIM "ninja".toList],
       seqsM [litCIM "digital".toList, classPlusM isPySpace, litCIM "wizard".toList],
       seqsM [litCIM "tech".toList, classPlusM isPySpace, litCIM "rockstar".toList],
       seqsM [litCIM "code".toList, classPlusM isPySpace, litCIM "guru".toList]],
     boundM]]

/-- `STANDARD_SECTIONS` — ATS-friendly section names. -/
def STANDARD_SECTIONS : List Chars :=
  ["Professional Summary", "Summary", "Career Summary", "Profile",
   "Professional Experience", "Work Experience", "Experience",
   "Employment History", "Technical Skills", "Skills", "Core Competencies",
   "Technical Proficiencies", "Education", "Academic Background",
   "Educational Qualifications", "Certifications",
   "Licenses and Certifications", "Professional Certifications", "Projects",
   "Key Projects", "Portfolio", "Technical Projects", "Publications",
   "Research", "Papers", "Articles", "Awards", "Honors", "Recognition",
   "Achievements"].map String.toList

/-- Keywords watched by the keyword-stuffing rule. -/
def STUFFING_KEYWORDS : List Chars :=
  ["software", "development", "programming", "coding", "engineer",
   "developer"].map String.toList

/-! ## The checks of `validator.py` -/

/-- Loop body of `_check_emojis_and_special_chars` for line `i`: every
character of every `EMOJI_PATTERN` match yields its own CRITICAL violation. -/
def emoji_line (i : Nat) (line : Chars) : List Violation :=
  (reFinditer EMOJI_PATTERN line).flatMap (fun se =>
    (extract line se.1 se.2).map (fun ch =>
      { line_number := i
        line_content := pyStrip line
        violation_type := "Emoji/Special Character".toList
        severity := Severity.CRITICAL
        message := "Disallowed character: '".toList ++ [ch] ++ "'".toList
        suggestion := "Remove emojis and special Unicode characters. Use standard ASCII punctuation instead.".toList
        found_text := [ch] }))

/-- `_check_emojis_and_special_chars`. -/
def check_emojis_and_special_chars (lines : List Chars) : List Violation :=
  (enumFrom 1 lines).flatMap (fun il => emoji_line il.1 il.2)

/-- Loop body of `_check_tables` for line `i`: one HIGH violation when the
line matches `TABLE_PATTERN`. -/
def table_line (i : Nat) (line : Chars) : List Violation :=
  if reMatch TABLE_PATTERN line then
    [{ line_number := i
       line_content := pyStrip line
       violation_type := "Table Usage".toList
       severity := Severity.HIGH
       message := "Table detected in document".toList
       suggestion := "Convert tables to lists or standard sections. ATS systems may not parse table structures correctly.".toList
       found_text := pyStrip line }]
  else []

/-- `_check_tables`. -/
def check_tables (lines : List Chars) : List Violation :=
  (enumFrom 1 lines).flatMap (fun il => table_line il.1 il.2)

/-- Loop body of `_check_smart_quotes_and_punctuation` for line `i`: one
MEDIUM violation per occurrence of each of the four patterns, in source
order. -/
def smart_line (i : Nat) (line : Chars) : List Violation :=
  ((reFinditer SMART_QUOTES_PATTERN line).map (fun se =>
      { line_number := i
        line_content := pyStrip line
        violation_type := "Smart Quotes".toList
        severity := Severity.MEDIUM
        message := "Smart quote detected: '".toList ++ extract line se.1 se.2 ++ "'".toList
        suggestion := "Use straight quotes (\" and ') instead of smart quotes.".toList
        found_text := extract line se.1 se.2 })) ++
    ((reFinditer EM_DASH_PATTERN line).map (fun se =>
      { line_number := i
        line_content := pyStrip line
        violation_type := "Em Dash".toList
        severity := Severity.MEDIUM
        message := "Em dash detected: '".toList ++ extract line se.1 se.2 ++ "'".toList
        suggestion := ("Use hyphens (-) instead of em dashes (" ++
          String.mk [Char.ofNat 0x2014] ++ ").").toList
        found_text := extract line se.1 se.2 })) ++
    ((reFinditer EN_DASH_PATTERN line).map (fun se =>
      { line_number := i
        line_content := pyStrip line
        violation_type := "En Dash".toList
        severity := Severity.MEDIUM
        message := "En dash detected: '".toList ++ extract line se.1 se.2 ++ "'".toList
        suggestion := ("Use hyphens (-) instead of en dashes (" ++
          String.mk [Char.ofNat 0x2013] ++ ").").toList
        found_text := extract line se.1 se.2 })) ++
    ((reFinditer ELLIPSIS_PATTERN line).map (fun se =>
      { line_number := i
        line_content := pyStrip line
        violation_type := "Ellipsis".toList
        severity := Severity.MEDIUM
        message := "Ellipsis character detected: '".toList ++ extract line se.1 se.2 ++ "'".toList
        suggestion := ("Use three periods (...) instead of ellipsis character (" ++
          String.mk [Char.ofNat 0x2026] ++ ").").toList
        found_text := extract line se.1 se.2 }))

/-- `_check_smart_quotes_and_punctuation`. -/
def check_smart_quotes_and_punctuation (lines : List Chars) : List Violation :=
  (enumFrom 1 lines).flatMap (fun il => smart_line il.1 il.2)

/-- `_check_all_caps_sections`: LOW violation for an all-caps, non-heading
line longer than 3 characters **unless some** whitespace-separated word is in
`COMMON_ACRONYMS` (`if not any(word in COMMON_ACRONYMS for word in words)`). -/
def all_caps_line (i : Nat) (line : Chars) : List Violation :=
    let stripped := pyStrip line
    if stripped.isEmpty || startsWith' "#".toList stripped then []
    else if reMatch ALL_CAPS_PATTERN stripped && decide (3 < stripped.length) then
      if !(pySplitWs stripped).any (fun w => COMMON_ACRONYMS.contains w) then
        [{ line_number := i
           line_content := stripped
           violation_type := "ALL CAPS".toList
           severity := Severity.LOW
           message := "ALL CAPS text detected".toList
           suggestion := "Use proper case instead of ALL CAPS. This improves readability and looks more professional.".toList
           found_text := stripped }]
      else []
    else []

/-- `_check_all_caps_sections`. -/
def check_all_caps_sections (lines : List Chars) : List Violation :=
  (enumFrom 1 lines).flatMap (fun il => all_caps_line il.1 il.2)

/-- `_check_creative_job_titles`: MEDIUM violation per match of each creative
title pattern. -/
def creative_line (i : Nat) (line : Chars) : List Violation :=
    CREATIVE_TITLE_PATTERNS.flatMap (fun pat =>
      (reFinditer pat line).map (fun se =>
        { line_number := i
          line_content := pyStrip line
          violation_type := "Creative Job Title".toList
          severity := Severity.MEDIUM
          message := "Creative job title detected: '".toList ++ extract line se.1 se.2 ++ "'".toList
          suggestion := "Use standard job titles like 'Software Engineer', 'Developer', or 'Manager' instead of creative titles.".toList
          found_text := extract line se.1 se.2 }))

/-- `_check_creative_job_titles`. -/
def check_creative_job_titles (lines : List Chars) : List Violation :=
  (enumFrom 1 lines).flatMap (fun il => creative_line il.1 il.2)

/-- `_check_date_formats`: HIGH violation per `NON_STANDARD_DATE_PATTERN`
match. -/
def date_line (i : Nat) (line : Chars) : List Violation :=
    (reFinditer NON_STANDARD_DATE_PATTERN line).map (fun se =>
      { line_number := i
        line_content := pyStrip line
        violation_type := "Non-Standard Date Format".toList
        severity := Severity.HIGH
        message := "Non-standard date format detected: '".toList ++ extract line se.1 se.2 ++ "'".toList
        suggestion := "Use standard date formats like 'January 2020 - March 2024' or 'Jan 2020 - Mar 2024'.".toList
        found_text := extract line se.1 se.2 })

/-- `_check_date_formats`. -/
def check_date_formats (lines : List Chars) : List Violation :=
  (enumFrom 1 lines).flatMap (fun il => date_line il.1 il.2)

/-- `_check_hidden_text`: CRITICAL violation per HTML comment in the whole
content, with the line number derived by counting `'\n'` before the match. -/
def check_hidden_text (content : Chars) : List Violation :=
  let lines := pySplitlines content
  (reFinditer HIDDEN_COMMENT_PATTERN content).map (fun se =>
    let line_num := countNl (content.take se.1) + 1
    { line_number := line_num
      line_content :=
        if line_num ≤ lines.length then pyStrip (lines.getD (line_num - 1) [])
        else []
      violation_type := "Hidden Text".toList
      severity := Severity.CRITICAL
      message := "Hidden text detected in HTML comment".toList
      suggestion := "Remove hidden text and HTML comments. ATS systems may not parse hidden content correctly.".toList
      found_text := extract content se.1 se.2 })

/-- `_check_keyword_stuffing`: LOW violation per keyword appearing more than
twice in one line. -/
def keyword_line (i : Nat) (line : Chars) : List Violation :=
    let line_lower := pyLower line
    STUFFING_KEYWORDS.flatMap (fun kw =>
      let count := countOcc kw line_lower
      if 2 < count then
        [{ line_number := i
           line_content := pyStrip line
           violation_type := "Keyword Stuffing".toList
           severity := Severity.LOW
           message := "Excessive repetition of '".toList ++ kw ++ "' (".toList ++
             (toString count).toList ++ " times)".toList
           suggestion := "Reduce keyword repetition. Use synonyms and vary your language to sound more natural.".toList
           found_text := kw }]
      else [])

/-- `_check_keyword_stuffing`. -/
def check_keyword_stuffing (lines : List Chars) : List Violation :=
  (enumFrom 1 lines).flatMap (fun il => keyword_line il.1 il.2)

/-- `_check_section_headers`: LOW violation for a `##` heading whose name
(after stripping the first two `#` characters) is non-empty and not in
`STANDARD_SECTIONS`. -/
def section_line (i : Nat) (line : Chars) : List Violation :=
    let stripped := pyStrip line
    if startsWith' "##".toList stripped then
      let section_name := pyStrip (stripped.drop 2)
      if !section_name.isEmpty && !STANDARD_SECTIONS.contains section_name then
        [{ line_number := i
           line_content := stripped
           violation_type := "Non-Standard Section Header".toList
           severity := Severity.LOW
           message := "Non-standard section header: '".toList ++ section_name ++ "'".toList
           suggestion := "Consider using a standard section name like 'Professional Experience' or 'Technical Skills'.".toList
           found_text := section_name }]
      else []
    else []

/-- `_check_section_headers`. -/
def check_section_headers (lines : List Chars) : List Violation :=
  (enumFrom 1 lines).flatMap (fun il => section_line il.1 il.2)

/-! ## Aggregation and sorting (`validate_document`) -/

/-- The `severity_order` dict used as the primary sort key. -/
def severity_order : Severity → Nat
  | Severity.CRITICAL => 0
  | Severity.HIGH => 1
  | Severity.MEDIUM => 2
  | Severity.LOW => 3

/-- The sort key `(severity_order[v.severity], v.line_number)`. -/
def sortKey (v : Violation) : Nat × Nat := (severity_order v.severity, v.line_number)

/-- Lexicographic comparison of sort keys: Python's tuple `<=` used by the
stable `list.sort`. -/
def sortLe (a b : Violation) : Bool :=
  decide (severity_order a.severity < severity_order b.severity ∨
    (severity_order a.severity = severity_order b.severity ∧
      a.line_number ≤ b.line_number))

/-- All violations collected by `validate_document`, in rule-execution
order, before the final sort. -/
def collect_violations (content : Chars) : List Violation :=
  let lines := pySplitlines content
  check_emojis_and_special_chars lines ++
  check_tables lines ++
  check_smart_quotes_and_punctuation lines ++
  check_all_caps_sections lines ++
  check_creative_job_titles lines ++
  check_date_formats lines ++
  check_hidden_text content ++
  check_keyword_stuffing lines ++
  check_section_headers lines

/-- `validate_document`: run every check on the document's content and sort
the violations by (severity rank, line number) with Python's stable sort. -/
def validate_document (content : Chars) : List Violation :=
  (collect_violations content).mergeSort sortLe

/-! ## Contact-information sub-validator
(`validator/contact_validator.py`, with the `Violation` NamedTuple of
`validation_types.py`) -/

/-- `SeverityLevel` of `validation_types.py`. -/
inductive SeverityLevel where
  | LOW
  | MEDIUM
  | HIGH
  | CRITICAL
deriving DecidableEq, Repr

/-- The `Violation` NamedTuple of `validation_types.py` (five fields). -/
structure CViolation where
  line_number : Nat
  line_content : Chars
  message : Chars
  severity : SeverityLevel
  suggestion : Chars
deriving DecidableEq, Repr

/-- Local-part class `[A-Za-z0-9._%+-]` of `EMAIL_PATTERN`. -/
def isEmailLocalChar (c : Char) : Bool :=
  ('A' ≤ c && c ≤ 'Z') || ('a' ≤ c && c ≤ 'z') || isPyDigit c ||
  ("._%+-".toList).contains c

/-- Domain class `[A-Za-z0-9.-]` of `EMAIL_PATTERN`. -/
def isEmailDomainChar (c : Char) : Bool :=
  ('A' ≤ c && c ≤ 'Z') || ('a' ≤ c && c ≤ 'z') || isPyDigit c ||
  c == '.' || c == '-'

def isAsciiAlpha (c : Char) : Bool :=
  ('A' ≤ c && c ≤ 'Z') || ('a' ≤ c && c ≤ 'z')

/-- `EMAIL_PATTERN = r"\b[A-Za-z0-9._%+-]+@[A-Za-z0-9.-]+\.[A-Za-z]{2,}\b"`. -/
def CONTACT_EMAIL_PATTERN : Matcher :=
  seqsM [boundM, classPlusM isEmailLocalChar, litM "@".toList,
    classPlusM isEmailDomainChar, litM ".".toList, classAtLeastM isAsciiAlpha 2,
    boundM]

/-- `OBFUSCATED_EMAIL_PATTERN = r"\[at\]|\[dot\]|\(at\)|\(dot\)| AT | DOT "`
with `re.IGNORECASE`. -/
def OBFUSCATED_EMAIL_PATTERN : Matcher :=
  altsM (["[at]", "[dot]", "(at)", "(dot)", " AT ", " DOT "].map
    (fun w => litCIM w.toList))

/-- The separator class `[-.\s]` of `PHONE_PATTERN`. -/
def isPhoneSep (c : Char) : Bool := c == '-' || c == '.' || isPySpace c

/-- `PHONE_PATTERN = r"(\+\d{1,3}[-.\s]?)?(\(?\d{3}\)?[-.\s]?)?\d{3}[-.\s]?\d{4}"`. -/
def CONTACT_PHONE_PATTERN : Matcher :=
  seqsM [optM (seqsM [litM "+".toList, classRepM isPyDigit 1 3,
      optM (charClassM isPhoneSep)]),
    optM (seqsM [optM (litM "(".toList), classExactM isPyDigit 3,
      optM (litM ")".toList), optM (charClassM isPhoneSep)]),
    classExactM isPyDigit 3, optM (charClassM isPhoneSep),
    classExactM isPyDigit 4]

/-- `URL_PATTERN = r"\bhttps?://\S+\b"` with `re.IGNORECASE`. -/
def CONTACT_URL_PATTERN : Matcher :=
  seqsM [boundM, litCIM "http".toList, optM (litCIM "s".toList),
    litM "://".toList, classPlusM (fun c => !isPySpace c), boundM]

/-- `BARE_URL_PATTERN = r"\b(?!(?:https?://|www\.))\w+\.\w+/\S+\b"` with
`re.IGNORECASE`. -/
def CONTACT_BARE_URL_PATTERN : Matcher :=
  seqsM [boundM,
    negAheadM (altM
      (seqsM [litCIM "http".toList, optM (litCIM "s".toList), litM "://".toList])
      (litCIM "www.".toList)),
    classPlusM isWordChar, litM ".".toList, classPlusM isWordChar,
    litM "/".toList, classPlusM (fun c => !isPySpace c), boundM]

/-- `CONTACT_LABELS["email"]`. -/
def emailLabels : List Chars := ["email:", "e-mail:", "mail:"].map String.toList

/-- `CONTACT_LABELS["phone"]` — the only key containing `"phone"`, hence the
label set used by the phone check. -/
def phoneLabels : List Chars :=
  ["phone:", "tel:", "telephone:", "mobile:", "cell:"].map String.toList

def linkedinLabels : List Chars := ["linkedin:", "linked-in:"].map String.toList

def githubLabels : List Chars := ["github:", "git-hub:"].map String.toList

def websiteLabels : List Chars :=
  ["website:", "web:", "portfolio:", "site:"].map String.toList

/-- The label-oriented emoji class of the contact validator's
`EMOJI_PATTERN` (flags, pictographs, emoticons, transport, dingbats, ZWJ,
VS16, skin tones). -/
def isContactEmojiChar (c : Char) : Bool :=
  inCpRange c 0x1f1e0 0x1f1ff || inCpRange c 0x1f300 0x1f5ff ||
  inCpRange c 0x1f600 0x1f64f || inCpRange c 0x1f680 0x1f6ff ||
  inCpRange c 0x2700 0x27bf || c.toNat == 0x200d || c.toNat == 0xfe0f ||
  inCpRange c 0x1f3fb 0x1f3ff

def CONTACT_EMOJI_PATTERN : Matcher := classPlusM isContactEmojiChar

/-- Contact-indicator tokens looked for after a leading emoji. -/
def contactIndicators : List Chars :=
  ["@", "com", "org", "net", "phone", "email"].map String.toList

/-- `ContactValidator._validate_email_formatting`: an obfuscated marker wins
and suppresses the plain-email check; otherwise an email without an email
label is flagged. -/
def validate_email_formatting (content : Chars) (line_number : Nat) :
    List CViolation :=
  if reTest OBFUSCATED_EMAIL_PATTERN content then
    [{ line_number := line_number
       line_content := pyStrip content
       message := "Obfuscated email address detected".toList
       severity := SeverityLevel.HIGH
       suggestion := "Use standard email format: user@example.com".toList }]
  else if reTest CONTACT_EMAIL_PATTERN content &&
      !emailLabels.any (fun l => containsSub l (pyLower content)) then
    [{ line_number := line_number
       line_content := pyStrip content
       message := "Email address without proper label".toList
       severity := SeverityLevel.HIGH
       suggestion := "Add 'Email:' label before the address".toList }]
  else []

/-- `ContactValidator._validate_phone_formatting`: flag the first phone-like
match, either as unlabeled or (when labeled) as separator-free. -/
def validate_phone_formatting (content : Chars) (line_number : Nat) :
    List CViolation :=
  match reSearch CONTACT_PHONE_PATTERN content with
  | none => []
  | some se =>
    let phone := extract content se.1 se.2
    if !phoneLabels.any (fun l => containsSub l (pyLower content)) then
      [{ line_number := line_number
         line_content := pyStrip content
         message := "Phone number without proper label".toList
         severity := SeverityLevel.HIGH
         suggestion := "Add 'Phone:' label before the number".toList }]
    else
      let cleaned_phone := phone.filter (fun c =>
        !(c == '-' || c == ' ' || c == '.' || c == '(' || c == ')'))
      if decide (10 ≤ cleaned_phone.length) &&
          (cleaned_phone.take 10).all isPyDigit &&
          !(['-', ' ', '(', ')'].any (fun s => phone.contains s)) then
        [{ line_number := line_number
           line_content := pyStrip content
           message := "Phone number should use standard format".toList
           severity := SeverityLevel.HIGH
           suggestion := "Use format: (555) 123-4567 or 555-123-4567".toList }]
      else []

/-- `ContactValidator._validate_url_formatting`: protocol URLs pass; bare
URLs are flagged once, distinguishing missing label from missing protocol. -/
def validate_url_formatting (content : Chars) (line_number : Nat) :
    List CViolation :=
  if reTest CONTACT_URL_PATTERN content then []
  else if reTest CONTACT_BARE_URL_PATTERN content then
    let url_labels := linkedinLabels ++ githubLabels ++ websiteLabels
    if !url_labels.any (fun l => containsSub l (pyLower content)) then
      [{ line_number := line_number
         line_content := pyStrip content
         message := "URL without proper label".toList
         severity := SeverityLevel.HIGH
         suggestion := "Add appropriate label (LinkedIn:, GitHub:, Website:)".toList }]
    else
      [{ line_number := line_number
         line_content := pyStrip content
         message := "URL should include https:// protocol".toList
         severity := SeverityLevel.HIGH
         suggestion := "Add https:// to the beginning of the URL".toList }]
  else []

/-- `ContactValidator._validate_contact_labels`: flag an emoji used as a
leading contact label. -/
def validate_contact_labels (content : Chars) (line_number : Nat) :
    List CViolation :=
  if reTest CONTACT_EMOJI_PATTERN content then
    let stripped := pyStrip content
    if (match stripped with
        | [] => false
        | c :: rest =>
          isContactEmojiChar c && !rest.isEmpty &&
          (rest.head? == some ' ' ||
            contactIndicators.any (fun ind => containsSub ind (pyLower rest))) &&
          contactIndicators.any (fun ind => containsSub ind (pyLower rest))) then
      [{ line_number := line_number
         line_content := pyStrip content
         message := "Emoji used instead of text label".toList
         severity := SeverityLevel.HIGH
         suggestion := "Use text labels like 'Email:', 'Phone:', 'LinkedIn:'".toList }]
    else []
  else []

/-- The per-line body of `ContactValidator.validate`. -/
def contactValidateLines : List Chars → Nat → List CViolation
  | [], _ => []
  | l :: rest, current_line =>
    (if !(pyStrip l).isEmpty then
      validate_email_formatting l current_line ++
      validate_phone_formatting l current_line ++
      validate_url_formatting l current_line ++
      validate_contact_labels l current_line
    else []) ++ contactValidateLines rest (current_line + 1)

/-- `ContactValidator.validate(content, line_number)`: split on `'\n'` and run
the four sub-checks on every non-blank line, numbering lines consecutively. -/
def contact_validate (content : Chars) (line_number : Nat) : List CViolation :=
  contactValidateLines (splitOnNl content) line_number

/-! ## Claim theorems -/

/-- **C5** — A line containing the family emoji sequence (4 emoji codepoints
joined by zero-width joiners) yields exactly 4 separate CRITICAL
Emoji/Special Character violations from the emoji rule, one per visible
character; the zero-width joiners are not counted. -/
theorem family_emoji_four_critical_violations :
    "👨‍👩‍👧‍👦".toList =
      [Char.ofNat 0x1f468, Char.ofNat 0x200d, Char.ofNat 0x1f469,
       Char.ofNat 0x200d, Char.ofNat 0x1f467, Char.ofNat 0x200d,
       Char.ofNat 0x1f466] ∧
    isEmojiChar (Char.ofNat 0x200d) = false ∧
    (check_emojis_and_special_chars ["Family: 👨‍👩‍👧‍👦".toList]).map
        (fun v => (v.severity, v.violation_type, v.found_text)) =
      [(Severity.CRITICAL, "Emoji/Special Character".toList, [Char.ofNat 0x1f468]),
       (Severity.CRITICAL, "Emoji/Special Character".toList, [Char.ofNat 0x1f469]),
       (Severity.CRITICAL, "Emoji/Special Character".toList, [Char.ofNat 0x1f467]),
       (Severity.CRITICAL, "Emoji/Special Character".toList, [Char.ofNat 0x1f466])] := by
  refine ⟨by decide, by decide, by decide⟩

/-- **C3** — The source `ContactValidator` has no year-range exemption (the
`_is_year_range` helper its tests exercise is missing), so the line
`"(2021-2022)"` is flagged as an unlabeled phone number — one HIGH violation
where the claim and the repository's tests expect zero; the second half of
the claim holds: `"(555) 123-4567"` yields exactly one HIGH "without label"
violation. -/
theorem phone_year_range_divergence :
    (contact_validate "(2021-2022)".toList 1).map
        (fun v => (v.severity, v.message)) =
      [(SeverityLevel.HIGH, "Phone number without proper label".toList)] ∧
    (contact_validate "(555) 123-4567".toList 1).map
        (fun v => (v.severity, v.message)) =
      [(SeverityLevel.HIGH, "Phone number without proper label".toList)] := by
  refine ⟨by decide, by decide⟩

/-- **C2 counterexample** — `"API DESIGN"` is a non-heading all-caps line
longer than 3 characters mixing the allow-listed acronym `API` with the
non-acronym `DESIGN`, yet the ALL CAPS rule does not flag it: the code
exempts a line as soon as *any* word is an allow-listed acronym. -/
theorem all_caps_mixed_acronym_not_flagged :
    check_all_caps_sections ["API DESIGN".toList] = [] ∧
    pyStrip "API DESIGN".toList = "API DESIGN".toList ∧
    reMatch ALL_CAPS_PATTERN "API DESIGN".toList = true ∧
    3 < "API DESIGN".toList.length ∧
    pySplitWs "API DESIGN".toList = ["API".toList, "DESIGN".toList] ∧
    COMMON_ACRONYMS.contains "API".toList = true ∧
    COMMON_ACRONYMS.contains "DESIGN".toList = false := by
  refine ⟨by decide, by decide, by decide, by decide, by decide, by decide, by decide⟩

/-- **C4 counterexample** — a document consisting of the case-insensitive
HTML table block `<table>x</table>` produces no violation at all: the source
`_check_tables` has no HTML `<table>` detection. -/
theorem html_table_block_not_flagged :
    validate_document "<table>x</table>".toList = [] ∧
    containsSub "<table>".toList (pyLower "<table>x</table>".toList) = true := by
  refine ⟨?_, by decide⟩
  have h : collect_violations "<table>x</table>".toList = [] := by decide
  rw [validate_document, h, List.mergeSort_nil]

/-- **C6** — On any line matching an at/dot obfuscation marker, the email
check emits exactly the one HIGH obfuscated-email violation; the output is
independent of whatever plain-email content the line holds, because the check
returns before the plain/unlabeled-email test. -/
theorem obfuscated_email_single_violation (content : Chars) (line_number : Nat)
    (h : reTest OBFUSCATED_EMAIL_PATTERN content = true) :
    validate_email_formatting content line_number =
      [{ line_number := line_number
         line_content := pyStrip content
         message := "Obfuscated email address detected".toList
         severity := SeverityLevel.HIGH
         suggestion := "Use standard email format: user@example.com".toList }] := by
  simp [validate_email_formatting, h]

/-- Witness for **C6**: a line carrying both an ` AT ` obfuscation marker and
a plain unlabeled email still yields only the single obfuscation violation. -/
theorem obfuscated_email_single_violation_witness :
    reTest OBFUSCATED_EMAIL_PATTERN "reach me AT user@example.com".toList = true ∧
    reTest CONTACT_EMAIL_PATTERN "reach me AT user@example.com".toList = true ∧
    validate_email_formatting "reach me AT user@example.com".toList 3 =
      [{ line_number := 3
         line_content := pyStrip "reach me AT user@example.com".toList
         message := "Obfuscated email address detected".toList
         severity := SeverityLevel.HIGH
         suggestion := "Use standard email format: user@example.com".toList }] :=
  ⟨by decide, by decide,
    obfuscated_email_single_violation "reach me AT user@example.com".toList 3 (by decide)⟩

/-- **C7** — The URL check: a protocol URL makes the line compliant; with no
protocol URL, a bare domain-like token yields exactly one HIGH violation,
"without proper label" when no URL-specific label is present and "should
include https://" when one is; no bare token, no violation. -/
theorem url_check_cases (content : Chars) (ln : Nat) :
    (reTest CONTACT_URL_PATTERN content = true →
      validate_url_formatting content ln = []) ∧
    (reTest CONTACT_URL_PATTERN content = false →
      reTest CONTACT_BARE_URL_PATTERN content = false →
      validate_url_formatting content ln = []) ∧
    (reTest CONTACT_URL_PATTERN content = false →
      reTest CONTACT_BARE_URL_PATTERN content = true →
      (linkedinLabels ++ githubLabels ++ websiteLabels).any
          (fun l => containsSub l (pyLower content)) = false →
      validate_url_formatting content ln =
        [{ line_number := ln
           line_content := pyStrip content
           message := "URL without proper label".toList
           severity := SeverityLevel.HIGH
           suggestion := "Add appropriate label (LinkedIn:, GitHub:, Website:)".toList }]) ∧
    (reTest CONTACT_URL_PATTERN content = false →
      reTest CONTACT_BARE_URL_PATTERN content = true →
      (linkedinLabels ++ githubLabels ++ websiteLabels).any
          (fun l => containsSub l (pyLower content)) = true →
      validate_url_formatting content ln =
        [{ line_number := ln
           line_content := pyStrip content
           message := "URL should include https:// protocol".toList
           severity := SeverityLevel.HIGH
           suggestion := "Add https:// to the beginning of the URL".toList }]) := by
  refine ⟨fun h1 => ?_, fun h1 h2 => ?_, fun h1 h2 h3 => ?_, fun h1 h2 h3 => ?_⟩
  · simp [validate_url_formatting, h1]
  · simp [validate_url_formatting, h1, h2]
  · simp only [validate_url_formatting, h1, h2, h3]
    simp
  · simp only [validate_url_formatting, h1, h2, h3]
    simp

/-- Witness for **C7**: the four cases at concrete lines. -/
theorem url_check_cases_witness :
    validate_url_formatting "LinkedIn: https://linkedin.com/in/user".toList 1 = [] ∧
    validate_url_formatting "hello world".toList 1 = [] ∧
    (validate_url_formatting "linkedin.com/in/user".toList 1).map
      (fun v => v.message) = ["URL without proper label".toList] ∧
    (validate_url_formatting "GitHub: github.com/user".toList 1).map
      (fun v => v.message) = ["URL should include https:// protocol".toList] := by
  refine ⟨(url_check_cases _ 1).1 (by decide),
    (url_check_cases _ 1).2.1 (by decide) (by decide), ?_, ?_⟩
  · rw [(url_check_cases "linkedin.com/in/user".toList 1).2.2.1 (by decide)
      (by decide) (by decide)]
    decide
  · rw [(url_check_cases "GitHub: github.com/user".toList 1).2.2.2 (by decide)
      (by decide) (by decide)]
    decide

/-- Modelled from the spec (refinement comparison for the label-lookup
claim): the text of the line up to and including the first colon,
lower-cased — the region the spec says is the only one each sub-check's
label lookup inspects. -/
def preColonRegion (content : Chars) : Chars :=
  pyLower (content.takeWhile (fun c => !(c == ':')) ++
    (if content.contains ':' then [':'] else []))

/-- **C8 counterexample** — on `"note: email: user@example.com"` the claim's
pre-colon lookup sees only `"note:"` and so predicts an unlabeled-email
violation, but the code's label lookup does substring containment against
the *whole* lower-cased line, finds `"email:"` after the first colon, and
emits nothing. -/
theorem label_after_colon_recognized_counterexample :
    reTest OBFUSCATED_EMAIL_PATTERN "note: email: user@example.com".toList = false ∧
    reTest CONTACT_EMAIL_PATTERN "note: email: user@example.com".toList = true ∧
    preColonRegion "note: email: user@example.com".toList = "note:".toList ∧
    emailLabels.any
      (fun l => containsSub l (preColonRegion "note: email: user@example.com".toList)) =
      false ∧
    validate_email_formatting "note: email: user@example.com".toList 1 = [] := by
  refine ⟨by decide, by decide, by decide, by decide, by decide⟩

theorem startsWith'_append (n b : Chars) : startsWith' n (n ++ b) = true := by
  induction n with
  | nil => rfl
  | cons c ns ih => simp [startsWith', ih]

theorem containsSub_append_middle (n a b : Chars) :
    containsSub n (a ++ n ++ b) = true := by
  induction a with
  | nil =>
    cases n with
    | nil =>
      cases b with
      | nil => rfl
      | cons x xs => simp [containsSub, startsWith']
    | cons c ns => simp [containsSub, startsWith', startsWith'_append]
  | cons x xs ih =>
    simp only [containsSub, List.cons_append, Bool.or_eq_true]
    exact Or.inr ih

/-- **C8 amended** — each contact sub-check's label lookup lower-cases the
*entire* line and does substring containment of its labels (each ending in a
colon) against it, so a label appearing anywhere in the line — also after an
earlier text-plus-colon pair — is recognized: an `email:` occurrence
suppresses the unlabeled-email violation wherever it sits, and the phone/URL
label predicates accept any line with an embedded `phone:`/`github:`. -/
theorem label_lookup_whole_line :
    (∀ (s t : Chars) (ln : Nat),
      reTest OBFUSCATED_EMAIL_PATTERN (s ++ "email:".toList ++ t) = false →
      validate_email_formatting (s ++ "email:".toList ++ t) ln = []) ∧
    (∀ s t : Chars,
      phoneLabels.any
        (fun l => containsSub l (pyLower (s ++ "phone:".toList ++ t))) = true) ∧
    (∀ s t : Chars,
      (linkedinLabels ++ githubLabels ++ websiteLabels).any
        (fun l => containsSub l (pyLower (s ++ "github:".toList ++ t))) = true) := by
  have hmid : ∀ (w : String) (s t : Chars), pyLower w.toList = w.toList →
      containsSub w.toList (pyLower (s ++ w.toList ++ t)) = true := by
    intro w s t hw
    simp only [pyLower] at hw
    have heq : pyLower (s ++ w.toList ++ t) = pyLower s ++ w.toList ++ pyLower t := by
      simp only [pyLower, List.map_append]
      rw [hw]
    rw [heq]
    exact containsSub_append_middle _ _ _
  refine ⟨fun s t ln h => ?_, fun s t => ?_, fun s t => ?_⟩
  · set content := s ++ "email:".toList ++ t with hc
    have h1 : containsSub "email:".toList (pyLower content) = true := by
      rw [hc]
      exact hmid "email:" s t (by decide)
    have hany : emailLabels.any
        (fun l => containsSub l (pyLower content)) = true :=
      List.any_eq_true.mpr ⟨"email:".toList, by decide, h1⟩
    unfold validate_email_formatting
    simp only [h, hany]
    simp
  · simp only [phoneLabels, List.map_cons, List.any_cons]
    rw [hmid "phone:" s t (by decide)]
    simp
  · simp only [linkedinLabels, githubLabels, websiteLabels, List.map_cons,
      List.any_cons, List.any_append]
    rw [hmid "github:" s t (by decide)]
    simp

/-- Witness for **C8 amended**: concrete lines with the label after an
earlier colon. -/
theorem label_lookup_whole_line_witness :
    validate_email_formatting
      ("note: ".toList ++ "email:".toList ++ " user@example.com".toList) 1 = [] ∧
    phoneLabels.any
      (fun l => containsSub l
        (pyLower ("contact: ".toList ++ "phone:".toList ++ " 555".toList))) = true :=
  ⟨label_lookup_whole_line.1 "note: ".toList " user@example.com".toList 1 (by decide),
   label_lookup_whole_line.2.1 "contact: ".toList " 555".toList⟩

/-- **C10** — For a line whose stripped text starts with `##`, the section
check emits exactly one LOW Non-Standard Section Header violation iff the
text after the first two `#` characters, stripped, is non-empty and not a
standard section; a bare `##` is never flagged, and `###` headings are
checked with the extra `#` kept in the compared name. -/
theorem section_header_characterization :
    (∀ (i : Nat) (line : Chars),
      startsWith' "##".toList (pyStrip line) = true →
      section_line i line =
        (if pyStrip ((pyStrip line).drop 2) ≠ [] ∧
            STANDARD_SECTIONS.contains (pyStrip ((pyStrip line).drop 2)) = false
         then
          [{ line_number := i
             line_content := pyStrip line
             violation_type := "Non-Standard Section Header".toList
             severity := Severity.LOW
             message := "Non-standard section header: '".toList ++
               pyStrip ((pyStrip line).drop 2) ++ "'".toList
             suggestion := "Consider using a standard section name like 'Professional Experience' or 'Technical Skills'.".toList
             found_text := pyStrip ((pyStrip line).drop 2) }]
         else [])) ∧
    section_line 1 "##".toList = [] ∧
    (section_line 1 "### Skills".toList).map (fun v => (v.severity, v.found_text)) =
      [(Severity.LOW, "# Skills".toList)] ∧
    (section_line 1 "## Hobbies".toList).length = 1 ∧
    section_line 1 "## Education".toList = [] := by
  refine ⟨?_, by decide, by decide, by decide, by decide⟩
  intro i line h
  have h' : startsWith' ['#', '#'] (pyStrip line) = true := h
  by_cases h1 : pyStrip ((pyStrip line).drop 2) = []
  · simp [section_line, h, h', h1]
  · by_cases h2 : STANDARD_SECTIONS.contains (pyStrip ((pyStrip line).drop 2)) = true
    · simp [section_line, h, h', h1, h2]
    · simp only [Bool.not_eq_true] at h2
      simp [section_line, h, h', h1, h2]

/-- Witness for **C10**: the characterization applied at the non-standard
heading `"## Work History"`. -/
theorem section_header_characterization_witness :
    section_line 4 "## Work History".toList =
      [{ line_number := 4
         line_content := "## Work History".toList
         violation_type := "Non-Standard Section Header".toList
         severity := Severity.LOW
         message := "Non-standard section header: '".toList ++
           "Work History".toList ++ "'".toList
         suggestion := "Consider using a standard section name like 'Professional Experience' or 'Technical Skills'.".toList
         found_text := "Work History".toList }] := by
  rw [section_header_characterization.1 4 "## Work History".toList (by decide)]
  decide

/-- **C2 amended** — the ALL CAPS rule flags a qualifying line iff **no**
whitespace-separated word of it is in the acronym allow-list, i.e. it exempts
the line as soon as *any* word is an allow-listed acronym (not only when
every word is). -/
theorem all_caps_flags_iff_no_acronym_word :
    (∀ (i : Nat) (line : Chars),
      all_caps_line i line ≠ [] ↔
        (pyStrip line ≠ [] ∧ startsWith' "#".toList (pyStrip line) = false ∧
         reMatch ALL_CAPS_PATTERN (pyStrip line) = true ∧
         3 < (pyStrip line).length ∧
         ∀ w ∈ pySplitWs (pyStrip line), COMMON_ACRONYMS.contains w = false)) ∧
    (∀ (i : Nat) (line : Chars) (v : Violation), v ∈ all_caps_line i line →
      v.severity = Severity.LOW ∧ v.violation_type = "ALL CAPS".toList) ∧
    (check_all_caps_sections ["EXPERIENCED SOFTWARE ENGINEER".toList]).map
      (fun v => (v.line_number, v.severity)) = [(1, Severity.LOW)] := by
  refine ⟨?_, ?_, by decide⟩
  · intro i line
    by_cases h0 : pyStrip line = []
    · simp [all_caps_line, h0]
    · by_cases h1 : startsWith' "#".toList (pyStrip line) = true
      · simp [all_caps_line, h0, h1]
      · simp only [Bool.not_eq_true] at h1
        by_cases h2 : reMatch ALL_CAPS_PATTERN (pyStrip line) = true
        · by_cases h3 : 3 < (pyStrip line).length
          · simp [all_caps_line, h0, h1, h2, h3, List.any_eq_true]
          · simp [all_caps_line, h0, h1, h2, h3]
        · simp only [Bool.not_eq_true] at h2
          simp [all_caps_line, h0, h1, h2]
  · intro i line v hv
    unfold all_caps_line at hv
    dsimp only at hv
    split at hv
    · simp at hv
    · split at hv
      · split at hv
        · simp only [List.mem_singleton] at hv
          subst hv
          exact ⟨rfl, rfl⟩
        · simp at hv
      · simp at hv

/-- Witness for **C2 amended**: `"API DESIGN"` has the non-acronym word
`DESIGN`, so the claim's every-word exemption does not apply, yet the rule
emits nothing because `API` alone exempts the line. -/
theorem all_caps_flags_iff_witness :
    all_caps_line 1 "API DESIGN".toList = [] ∧
    ¬ (∀ w ∈ pySplitWs (pyStrip "API DESIGN".toList),
        COMMON_ACRONYMS.contains w = false) := by
  constructor
  · by_contra hne
    have h := (all_caps_flags_iff_no_acronym_word.1 1 "API DESIGN".toList).mp hne
    have := h.2.2.2.2 "API".toList (by decide)
    simp at this
    exact absurd this (by decide)
  · intro hall
    have := hall "API".toList (by decide)
    exact absurd this (by decide)

/-- Length of the table check output over an arbitrary enumeration start. -/
theorem check_tables_length_aux (k : Nat) (lines : List Chars) :
    ((enumFrom k lines).flatMap (fun il => table_line il.1 il.2)).length =
      lines.countP (fun l => reMatch TABLE_PATTERN l) := by
  induction lines generalizing k with
  | nil => rfl
  | cons x xs ih =>
    simp only [enumFrom, List.flatMap_cons, List.length_append, List.countP_cons, ih]
    unfold table_line
    by_cases h : reMatch TABLE_PATTERN x = true
    · simp [h]
      omega
    · simp [h]

/-- **C4 amended** — every line matching `^\s*\|.*\|.*$` yields exactly one
HIGH Table Usage violation (so a 3-row piped Markdown table yields 3 ≥ 2
violations, the separator row included); the check performs no HTML
`<table>` detection. -/
theorem tables_one_violation_per_piped_row :
    (∀ lines : List Chars,
      (check_tables lines).length =
        lines.countP (fun l => reMatch TABLE_PATTERN l)) ∧
    (∀ (i : Nat) (line : Chars) (v : Violation), v ∈ table_line i line →
      v.severity = Severity.HIGH ∧ v.violation_type = "Table Usage".toList ∧
      reMatch TABLE_PATTERN line = true) ∧
    (check_tables ["| Category | Technologies |".toList,
                   "|----------|-------------|".toList,
                   "| Languages | Python, JavaScript |".toList]).length = 3 := by
  refine ⟨fun lines => check_tables_length_aux 1 lines, ?_, by decide⟩
  intro i line v hv
  unfold table_line at hv
  split at hv
  · simp only [List.mem_singleton] at hv
    subst hv
    refine ⟨rfl, rfl, by assumption⟩
  · simp at hv

/-- Witness for **C4 amended**: the per-violation facts at the separator row
of a piped table. -/
theorem tables_one_violation_per_piped_row_witness :
    (table_line 2 "|----------|-------------|".toList).map
      (fun v => (v.severity, v.violation_type)) =
      [(Severity.HIGH, "Table Usage".toList)] ∧
    reMatch TABLE_PATTERN "|----------|-------------|".toList = true := by
  refine ⟨by decide, ?_⟩
  exact (tables_one_violation_per_piped_row.2.1 2 "|----------|-------------|".toList
    { line_number := 2
      line_content := pyStrip "|----------|-------------|".toList
      violation_type := "Table Usage".toList
      severity := Severity.HIGH
      message := "Table detected in document".toList
      suggestion := "Convert tables to lists or standard sections. ATS systems may not parse table structures correctly.".toList
      found_text := pyStrip "|----------|-------------|".toList }
    (by decide)).2.2

theorem sortLe_trans (a b c : Violation) (h1 : sortLe a b = true)
    (h2 : sortLe b c = true) : sortLe a c = true := by
  simp only [sortLe, decide_eq_true_eq] at h1 h2 ⊢
  omega

theorem sortLe_total (a b : Violation) : sortLe a b || sortLe b a := by
  simp only [sortLe, Bool.or_eq_true, decide_eq_true_eq]
  omega

/-- Violations sharing one sort key are pairwise `sortLe`-related. -/
theorem pairwise_sortLe_of_const_key (xs : List Violation) (k : Nat × Nat)
    (h : ∀ v ∈ xs, sortKey v = k) :
    xs.Pairwise (fun a b => sortLe a b = true) := by
  induction xs with
  | nil => exact List.Pairwise.nil
  | cons x xs ih =>
    refine List.Pairwise.cons (fun y hy => ?_)
      (ih (fun v hv => h v (List.mem_cons_of_mem _ hv)))
    have hx := h x (List.mem_cons_self _ _)
    have hy' := h y (List.mem_cons_of_mem _ hy)
    rw [← hy'] at hx
    simp only [sortKey, Prod.mk.injEq] at hx
    simp only [sortLe, decide_eq_true_eq]
    omega

/-- **C1** — the violation list returned by `validate_document` is totally
ordered by severity rank and then ascending line number, and the sort is
stable: for each sort key, the violations with that key appear in exactly
the order the rules produced them. -/
theorem validate_document_sorted_stable (content : Chars) :
    (validate_document content).Pairwise (fun v1 v2 =>
      severity_order v1.severity < severity_order v2.severity ∨
      (severity_order v1.severity = severity_order v2.severity ∧
        v1.line_number ≤ v2.line_number)) ∧
    ∀ k : Nat × Nat,
      (validate_document content).filter (fun v => decide (sortKey v = k)) =
        (collect_violations content).filter (fun v => decide (sortKey v = k)) := by
  constructor
  · have h : (List.mergeSort (collect_violations content) sortLe).Pairwise
        (fun a b => sortLe a b = true) :=
      List.sorted_mergeSort (fun a b c => sortLe_trans a b c)
        (fun a b => sortLe_total a b) (collect_violations content)
    exact h.imp (fun hab => by simpa [sortLe, decide_eq_true_eq] using hab)
  · intro k
    set p : Violation → Bool := fun v => decide (sortKey v = k) with hp
    set l := collect_violations content with hl
    have hkey : ∀ v ∈ l.filter p, sortKey v = k := by
      intro v hv
      have := List.of_mem_filter hv
      simpa [hp] using this
    have hpair : (l.filter p).Pairwise (fun a b => sortLe a b = true) :=
      pairwise_sortLe_of_const_key _ k hkey
    have h1 : List.Sublist (l.filter p) (List.mergeSort l sortLe) :=
      List.sublist_mergeSort (fun a b c => sortLe_trans a b c)
        (fun a b => sortLe_total a b) hpair (List.filter_sublist l)
    have h2 : List.Sublist ((l.filter p).filter p)
        ((List.mergeSort l sortLe).filter p) :=
      h1.filter p
    have h3 : (l.filter p).filter p = l.filter p := by
      rw [List.filter_filter]
      simp
    rw [h3] at h2
    have hlen : ((List.mergeSort l sortLe).filter p).length = (l.filter p).length :=
      ((List.mergeSort_perm l sortLe).filter p).length_eq
    exact (h2.eq_of_length hlen.symm).symm

/-! ## Line-number bounds (C9) -/

/-- Every span yielded by `finditerAux` is a real match. -/
theorem finditerAux_sound (m : Matcher) (cs : Chars) :
    ∀ (fuel i : Nat) (pe : Nat × Nat), pe ∈ finditerAux m cs i fuel →
      matchEnds m cs pe.1 = some pe.2 := by
  intro fuel
  induction fuel with
  | zero => intro i pe h; simp [finditerAux] at h
  | succ n ih =>
    intro i pe h
    simp only [finditerAux] at h
    split at h
    · simp at h
    · cases hm : matchEnds m cs i with
      | some e =>
        rw [hm] at h
        rcases List.mem_cons.mp h with h | h
        · subst h; exact hm
        · exact ih _ _ h
      | none =>
        rw [hm] at h
        exact ih _ _ h

/-- A hidden-comment match starts at a `'<'`. -/
theorem hidden_match_head {cs : Chars} {p e : Nat}
    (h : matchEnds HIDDEN_COMMENT_PATTERN cs p = some e) : cs[p]? = some '<' := by
  have hne : HIDDEN_COMMENT_PATTERN cs p ≠ [] := by
    intro h0
    rw [matchEnds, h0] at h
    simp at h
  have h1 : litM ['<', '!', '-', '-'] cs p ≠ [] := by
    intro h0
    apply hne
    have hrw : HIDDEN_COMMENT_PATTERN cs p =
        (litM ['<', '!', '-', '-'] cs p).flatMap
          (fun j => seqM dotStarLazyAllM (seqM (litM "-->".toList) epsM) cs j) := rfl
    rw [hrw, h0]
    rfl
  have h2 : (cs.drop p).take 4 = ['<', '!', '-', '-'] := by
    by_contra hc
    exact h1 (by simp [litM, hc])
  have h3 : (cs.drop p)[0]? = some '<' := by
    cases hd : cs.drop p with
    | nil => rw [hd] at h2; simp at h2
    | cons a as =>
      rw [hd] at h2
      rw [List.take_succ_cons] at h2
      injection h2 with ha _
      simp [ha]
  have := List.getElem?_drop cs p 0
  rw [h3] at this
  simpa using this.symm

/-- A non-empty accumulator guarantees at least one output line. -/
theorem pySplitlinesAux_pos : ∀ (cs acc : Chars), acc ≠ [] →
    1 ≤ (pySplitlinesAux cs acc).length
  | [], acc, h => by
    simp only [pySplitlinesAux]
    rw [if_neg (by simpa using h)]
    simp
  | [c], acc, _ => by
    simp only [pySplitlinesAux]
    split <;> simp
  | c :: d :: rest, acc, h => by
    simp only [pySplitlinesAux]
    split
    · simp
    · split
      · simp
      · exact pySplitlinesAux_pos (d :: rest) (c :: acc) (by simp)

/-- The hidden-text rule's line number is in range: if position `p` of the
content holds a non-line-break character, then the number of `'\n'`
characters before `p`, plus one, is at most the number of lines. -/
theorem countNl_bound : ∀ (cs acc : Chars) (p : Nat) (c : Char),
    cs[p]? = some c → isLineBreak c = false →
    countNl (cs.take p) + 1 ≤ (pySplitlinesAux cs acc).length
  | [], _, p, c, hc, _ => by simp at hc
  | [b], acc, p, c, hc, hb => by
    match p, hc with
    | 0, hc =>
      simp only [List.getElem?_cons_zero, Option.some.injEq] at hc
      subst hc
      simp only [pySplitlinesAux]
      rw [if_neg (by simp [hb])]
      simp [countNl]
    | n + 1, hc => simp at hc
  | b :: d :: rest, acc, p, c, hc, hb => by
    simp only [pySplitlinesAux]
    split
    · rename_i hcond
      simp only [Bool.and_eq_true, decide_eq_true_eq] at hcond
      obtain ⟨rfl, rfl⟩ := hcond
      match p, hc with
      | 0, hc =>
        simp only [List.getElem?_cons_zero, Option.some.injEq] at hc
        subst hc
        simp [isLineBreak] at hb
      | 1, hc =>
        simp only [List.getElem?_cons_succ, List.getElem?_cons_zero,
          Option.some.injEq] at hc
        subst hc
        simp [isLineBreak] at hb
      | n + 2, hc =>
        simp only [List.getElem?_cons_succ] at hc
        have ih := countNl_bound rest [] n c hc hb
        simp only [List.take_succ_cons, countNl, List.countP_cons, List.length_cons,
          show (('\x0d' : Char) == '\n') = false from by decide,
          show (('\n' : Char) == '\n') = true from by decide]
        simp only [countNl] at ih
        simp
        omega
    · split
      · rename_i hcond hbreak
        match p, hc with
        | 0, hc =>
          simp only [List.getElem?_cons_zero, Option.some.injEq] at hc
          subst hc
          rw [hbreak] at hb
          cases hb
        | n + 1, hc =>
          simp only [List.getElem?_cons_succ] at hc
          have ih := countNl_bound (d :: rest) [] n c hc hb
          simp only [List.take_succ_cons, countNl, List.countP_cons,
            List.length_cons]
          simp only [countNl] at ih
          by_cases hbn : (b == '\n') = true
          · simp only [hbn]
            simp
            omega
          · simp only [Bool.not_eq_true] at hbn
            simp only [hbn]
            simp
            omega
      · rename_i hcond hbreak
        simp only [Bool.not_eq_true] at hbreak
        match p, hc with
        | 0, _ =>
          simp only [List.take_zero, countNl, List.countP_nil]
          exact pySplitlinesAux_pos (d :: rest) (b :: acc) (by simp)
        | n + 1, hc =>
          simp only [List.getElem?_cons_succ] at hc
          have ih := countNl_bound (d :: rest) (b :: acc) n c hc hb
          have hbn : (b == '\n') = false := by
            by_contra hbb
            simp only [Bool.not_eq_false, beq_iff_eq] at hbb
            subst hbb
            simp [isLineBreak] at hbreak
          simp only [List.take_succ_cons, countNl, List.countP_cons, hbn]
          simp only [countNl] at ih
          simp
          omega

theorem enumFrom_mem_bounds {α : Type} (k : Nat) (xs : List α) (i : Nat) (x : α)
    (h : (i, x) ∈ enumFrom k xs) : k ≤ i ∧ i < k + xs.length := by
  induction xs generalizing k with
  | nil => simp [enumFrom] at h
  | cons y ys ih =>
    simp only [enumFrom, List.mem_cons, Prod.mk.injEq] at h
    rcases h with ⟨rfl, rfl⟩ | h
    · simp
    · have := ih (k + 1) h
      simp only [List.length_cons]
      omega

theorem emoji_line_number (i : Nat) (line : Chars) (v : Violation)
    (hv : v ∈ emoji_line i line) : v.line_number = i := by
  simp only [emoji_line, List.mem_flatMap, List.mem_map] at hv
  obtain ⟨se, _, ch, _, rfl⟩ := hv
  rfl

theorem table_line_number (i : Nat) (line : Chars) (v : Violation)
    (hv : v ∈ table_line i line) : v.line_number = i := by
  unfold table_line at hv
  split at hv
  · simp only [List.mem_singleton] at hv
    subst hv
    rfl
  · simp at hv

theorem smart_line_number (i : Nat) (line : Chars) (v : Violation)
    (hv : v ∈ smart_line i line) : v.line_number = i := by
  simp only [smart_line, List.mem_append, List.mem_map] at hv
  rcases hv with ((⟨se, _, rfl⟩ | ⟨se, _, rfl⟩) | ⟨se, _, rfl⟩) | ⟨se, _, rfl⟩ <;> rfl

theorem all_caps_line_number (i : Nat) (line : Chars) (v : Violation)
    (hv : v ∈ all_caps_line i line) : v.line_number = i := by
  unfold all_caps_line at hv
  dsimp only at hv
  split at hv
  · simp at hv
  · split at hv
    · split at hv
      · simp only [List.mem_singleton] at hv
        subst hv
        rfl
      · simp at hv
    · simp at hv

theorem creative_line_number (i : Nat) (line : Chars) (v : Violation)
    (hv : v ∈ creative_line i line) : v.line_number = i := by
  simp only [creative_line, List.mem_flatMap, List.mem_map] at hv
  obtain ⟨pat, _, se, _, rfl⟩ := hv
  rfl

theorem date_line_number (i : Nat) (line : Chars) (v : Violation)
    (hv : v ∈ date_line i line) : v.line_number = i := by
  simp only [date_line, List.mem_map] at hv
  obtain ⟨se, _, rfl⟩ := hv
  rfl

theorem keyword_line_number (i : Nat) (line : Chars) (v : Violation)
    (hv : v ∈ keyword_line i line) : v.line_number = i := by
  simp only [keyword_line, List.mem_flatMap] at hv
  obtain ⟨kw, _, hin⟩ := hv
  split at hin
  · simp only [List.mem_singleton] at hin
    subst hin
    rfl
  · simp at hin

theorem section_line_number (i : Nat) (line : Chars) (v : Violation)
    (hv : v ∈ section_line i line) : v.line_number = i := by
  unfold section_line at hv
  dsimp only at hv
  split at hv
  · split at hv
    · simp only [List.mem_singleton] at hv
      subst hv
      rfl
    · simp at hv
  · simp at hv

/-- Any per-line rule whose violations carry their own line number stays in
range when run over the enumerated lines. -/
theorem check_line_bounds {f : Nat → Chars → List Violation}
    (hf : ∀ i line v, v ∈ f i line → v.line_number = i) (lines : List Chars)
    (v : Violation)
    (hv : v ∈ (enumFrom 1 lines).flatMap (fun il => f il.1 il.2)) :
    1 ≤ v.line_number ∧ v.line_number ≤ lines.length := by
  simp only [List.mem_flatMap] at hv
  obtain ⟨il, hmem, hvf⟩ := hv
  obtain ⟨i, l⟩ := il
  have hb := enumFrom_mem_bounds 1 lines i l hmem
  have := hf i l v hvf
  omega

/-- The hidden-text rule's violations stay in range. -/
theorem check_hidden_bounds (content : Chars) (v : Violation)
    (hv : v ∈ check_hidden_text content) :
    1 ≤ v.line_number ∧ v.line_number ≤ (pySplitlines content).length := by
  simp only [check_hidden_text, List.mem_map] at hv
  obtain ⟨se, hse, rfl⟩ := hv
  have hm := finditerAux_sound HIDDEN_COMMENT_PATTERN content _ 0 se hse
  have hc := hidden_match_head hm
  have hbound := countNl_bound content [] se.1 '<' hc (by decide)
  exact ⟨Nat.le_add_left 1 _, hbound⟩

/-- **C9** — every violation returned by `validate_document` has a line
number between 1 and the document's line count (hidden-text rule included),
and the empty document produces zero violations. -/
theorem validate_document_line_number_bounds (content : Chars) :
    (∀ v ∈ validate_document content,
      1 ≤ v.line_number ∧ v.line_number ≤ (pySplitlines content).length) ∧
    validate_document [] = [] := by
  constructor
  · intro v hv
    rw [validate_document, List.mem_mergeSort] at hv
    simp only [collect_violations, check_emojis_and_special_chars, check_tables,
      check_smart_quotes_and_punctuation, check_all_caps_sections,
      check_creative_job_titles, check_date_formats, check_keyword_stuffing,
      check_section_headers, List.mem_append] at hv
    rcases hv with ((((((((h | h) | h) | h) | h) | h) | h) | h) | h)
    · exact check_line_bounds emoji_line_number _ v h
    · exact check_line_bounds table_line_number _ v h
    · exact check_line_bounds smart_line_number _ v h
    · exact check_line_bounds all_caps_line_number _ v h
    · exact check_line_bounds creative_line_number _ v h
    · exact check_line_bounds date_line_number _ v h
    · exact check_hidden_bounds content v h
    · exact check_line_bounds keyword_line_number _ v h
    · exact check_line_bounds section_line_number _ v h
  · have h : collect_violations [] = [] := by decide
    rw [validate_document, h, List.mergeSort_nil]

/-- Witness for **C9**: the emoji violation of a concrete one-line document
has its line number between 1 and the document's line count. -/
theorem validate_document_line_number_bounds_witness :
    1 ≤ (Violation.mk 1 "Status: ✅ done".toList
        "Emoji/Special Character".toList Severity.CRITICAL
        "Disallowed character: '✅'".toList
        "Remove emojis and special Unicode characters. Use standard ASCII punctuation instead.".toList
        "✅".toList).line_number ∧
    (Violation.mk 1 "Status: ✅ done".toList
        "Emoji/Special Character".toList Severity.CRITICAL
        "Disallowed character: '✅'".toList
        "Remove emojis and special Unicode characters. Use standard ASCII punctuation instead.".toList
        "✅".toList).line_number ≤
      (pySplitlines "Status: ✅ done".toList).length :=
  (validate_document_line_number_bounds "Status: ✅ done".toList).1 _
    (by rw [validate_document, List.mem_mergeSort]; decide)
